import Mathlib

/-!
Shallow embedding of the translation-class registry and mapping-compiler
engine of astro_metadata_translator (python/astro_metadata_translator/
translator.py), together with theorems checking the specification's claims
about it.

Python scalars are modelled as follows: floats become `PyFloat` (a rational
value, NaN, or a signed infinity — IEEE rounding is not modelled, values are
kept exact), ints become `Int`, strings become `String`.  Header access and
the registry are association lists with Python-dict semantics (first match
on lookup, in-place replacement on re-insertion of an existing key).
Exceptions are modelled with `Except`; because a Python instance keeps any
mutation performed before an exception was raised, each stateful operation
returns its resulting state alongside the `Except` outcome rather than
inside it.
-/

/-- Model of a Python float: NaN, a signed infinity, or an exact finite
value. -/
inductive PyFloat where
  | nan : PyFloat
  | inf (neg : Bool) : PyFloat
  | fin (q : ℚ) : PyFloat
deriving DecidableEq, Repr

/-- A Python number as stored in a header or used as a bound: an int or a
float (`isinstance(x, float)` distinguishes the two). -/
inductive PyNum where
  | int (n : ℤ) : PyNum
  | float (f : PyFloat) : PyNum
deriving DecidableEq, Repr

/-- A scalar header / property value: a string or a number. -/
inductive Value where
  | str (s : String) : Value
  | num (n : PyNum) : Value
deriving DecidableEq, Repr

/-- Python exceptions raised by the engine.  `keyError` carries the list of
candidate keywords that were tried, `valueError` a message. -/
inductive PyErr where
  | keyError (keywords : List String) : PyErr
  | typeError (msg : String) : PyErr
  | valueError (msg : String) : PyErr
deriving DecidableEq, Repr

/-- A resolver result: a plain value, or a unit-attached quantity
(`astropy.units.Quantity`, modelled as a value paired with a unit name). -/
inductive PyObj where
  | val (v : Value) : PyObj
  | quantity (v : Value) (unit : String) : PyObj
deriving DecidableEq, Repr

deriving instance DecidableEq for Except

abbrev Header := List (String × Value)

/-- Python-dict lookup on an association list (keys are unique in a real
dict; lookup takes the first match). -/
def dictLookup {α : Type} (k : String) : List (String × α) → Option α
  | [] => none
  | (k2, v) :: rest => if k2 = k then some v else dictLookup k rest

/-- Python-dict insertion: replace in place when the key exists (keeping
its original position, as a CPython dict does), else append. -/
def dictInsert {α : Type} (k : String) (v : α) : List (String × α) → List (String × α)
  | [] => [(k, v)]
  | (k2, v2) :: rest =>
      if k2 = k then (k, v) :: rest else (k2, v2) :: dictInsert k v rest

/-- `isinstance(value, str)`. -/
def Value.isStr : Value → Bool
  | .str _ => true
  | .num _ => false

/-- `isinstance(value, float)` (a Python int is not a float). -/
def Value.isFloat : Value → Bool
  | .num (.float _) => true
  | _ => false

/-- Comparison of the underlying real values: an int compares exactly
against a float. -/
def PyNum.toPyFloat : PyNum → PyFloat
  | .int n => .fin (n : ℚ)
  | .float f => f

/-- IEEE-style strict less-than on floats: every comparison involving NaN
is false. -/
def PyFloat.lt : PyFloat → PyFloat → Bool
  | .nan, _ => false
  | _, .nan => false
  | .inf true, .inf true => false
  | .inf true, _ => true
  | _, .inf true => false
  | .inf false, _ => false
  | .fin _, .inf false => true
  | .fin a, .fin b => decide (a < b)

/-- `a < b` on Python numbers. -/
def PyNum.lt (a b : PyNum) : Bool := PyFloat.lt a.toPyFloat b.toPyFloat

/-- `math.isnan` on a number (on a string it raises TypeError, handled at
the call sites). -/
def PyNum.isnan : PyNum → Bool
  | .float .nan => true
  | _ => false

/- Parsing of `float(s)` for a string `s`: Python strips whitespace,
accepts an optional sign, then case-insensitively `nan`, `inf`,
`infinity`, or a decimal numeral with optional fractional part and
optional exponent.  (Underscore digit separators are not modelled.) -/

/-- Split a character list at the first occurrence of `c`; the second
component is `none` when `c` does not occur. -/
def splitOnChar (c : Char) : List Char → List Char × Option (List Char)
  | [] => ([], none)
  | x :: rest =>
      if x = c then ([], some rest)
      else
        let (a, b) := splitOnChar c rest
        (x :: a, b)

/-- Numeric value of a list of decimal digits. -/
def digitsToNat (cs : List Char) : ℕ :=
  cs.foldl (fun a c => a * 10 + (c.toNat - 48)) 0

/-- Strip an optional leading sign, returning (negative?, rest). -/
def stripSign : List Char → Bool × List Char
  | '+' :: rest => (false, rest)
  | '-' :: rest => (true, rest)
  | rest => (false, rest)

/-- The float denoted by mantissa digits `ip.fp` and exponent `e`. -/
def mantissaVal (ip fp : List Char) (e : ℤ) : ℚ :=
  ((digitsToNat ip : ℚ) + (digitsToNat fp : ℚ) / (10 : ℚ) ^ fp.length) * (10 : ℚ) ^ e

/-- Whitespace stripping as done by `float(str)`. -/
def trimChars (cs : List Char) : List Char :=
  ((cs.dropWhile Char.isWhitespace).reverse.dropWhile Char.isWhitespace).reverse

/-- Case folding for the case-insensitive nan/inf keywords and the 'E'
exponent marker. -/
def lowerChars (cs : List Char) : List Char := cs.map Char.toLower

/-- `float(s)` on a string: `none` models the ValueError Python raises on
an unparsable string. -/
def parsePyFloat (s : String) : Option PyFloat :=
  let cs := lowerChars (trimChars s.toList)
  let (neg, body) := stripSign cs
  if body = ['n', 'a', 'n'] then some .nan
  else if body = ['i', 'n', 'f'] ∨ body = ['i', 'n', 'f', 'i', 'n', 'i', 't', 'y'] then
    some (.inf neg)
  else
    let (mant, expPart) := splitOnChar 'e' body
    let (ip, fpOpt) := splitOnChar '.' mant
    let fp := fpOpt.getD []
    if ip.all Char.isDigit ∧ fp.all Char.isDigit ∧ (ip ≠ [] ∨ fp ≠ []) then
      match expPart with
      | none =>
          let q := mantissaVal ip fp 0
          some (.fin (if neg then -q else q))
      | some ecs =>
          let (eneg, ebody) := stripSign ecs
          if ebody ≠ [] ∧ ebody.all Char.isDigit then
            let e : ℤ := if eneg then -(digitsToNat ebody : ℤ) else (digitsToNat ebody : ℤ)
            let q := mantissaVal ip fp e
            some (.fin (if neg then -q else q))
          else none
    else none

/-- `float(value)` on an arbitrary scalar. -/
def Value.toFloat : Value → Except PyErr PyFloat
  | .str s =>
      match parsePyFloat s with
      | some f => .ok f
      | none => .error (.valueError s)
  | .num (.int n) => .ok (.fin (n : ℚ))
  | .num (.float f) => .ok f

/-- Rendering of a float by `str` (the exact digits of the rendering are
irrelevant to the engine; only that the result is a string matters). -/
def PyFloat.render : PyFloat → String
  | .nan => "nan"
  | .inf true => "-inf"
  | .inf false => "inf"
  | .fin q => toString q

/-- `str(value)` on an arbitrary scalar (total). -/
def Value.toStr : Value → String
  | .str s => s
  | .num (.int n) => toString n
  | .num (.float f) => f.render

/-! ## The translator engine (MetadataTranslator) -/

/-- The mutable state of a `MetadataTranslator` instance: the header it was
constructed around and the set of cards recorded as used
(`self._used_cards`). -/
structure TransState where
  header : Header
  used_cards : Finset String
deriving DecidableEq

/-- `MetadataTranslator._used_these_cards` for a single keyword. -/
def used_these_cards (s : TransState) (key : String) : TransState :=
  { s with used_cards := insert key s.used_cards }

/-- `MetadataTranslator.cards_used`: the frozenset snapshot. -/
def cards_used (s : TransState) : Finset String := s.used_cards

/-- `MetadataTranslator.validate_value(value, default, minimum, maximum)`.
`value = none` models Python `None`; `math.isnan` raises TypeError on a
string. -/
def validate_value (value : Option Value) (default : Value)
    (minimum maximum : Option PyNum) : Except PyErr Value :=
  match value with
  | none => .ok default
  | some (.str _) => .error (.typeError "must be real number, not str")
  | some (.num n) =>
      if n.isnan then .ok default
      else if (match minimum with | some m => n.lt m | none => false) then .ok default
      else if (match maximum with | some m => m.lt n | none => false) then .ok default
      else .ok (.num n)

/-- The candidate scan loop shared by `trivial_translator` and
`quantity_from_card`: the first keyword present in the header wins, giving
the keyword together with its header value. -/
def scanKeywords (header : Header) : List String → Option (String × Value)
  | [] => none
  | k :: rest =>
      match dictLookup k header with
      | some v => some (k, v)
      | none => scanKeywords header rest

/-- `MetadataTranslator.quantity_from_card(keywords, unit, default,
minimum, maximum)`.  Returns the outcome together with the instance state
after the call (mutations before a raise persist). -/
def quantity_from_card (s : TransState) (keywords : List String) (unit : String)
    (default : Option Value) (minimum maximum : Option PyNum) :
    Except PyErr PyObj × TransState :=
  match scanKeywords s.header keywords with
  | none => (.error (.keyError keywords), s)
  | some (keyword, v) =>
      match (if v.isStr then (v.toFloat).map (fun f => Value.num (.float f)) else .ok v) with
      | .error e => (.error e, s)
      | .ok v1 =>
          let s1 := used_these_cards s keyword
          match (match default with
                 | some d => validate_value (some v1) d minimum maximum
                 | none => .ok v1) with
          | .error e => (.error e, s1)
          | .ok v2 => (.ok (.quantity v2 unit), s1)

/-- The `default is not None and not isinstance(value, str)` guard of
`trivial_translator`: a header value is validated only when a default was
declared and the value is not a string. -/
def checked_value (default : Option Value) (v : Value)
    (minimum maximum : Option PyNum) : Except PyErr Value :=
  match default with
  | some d => if v.isStr then .ok v else validate_value (some v) d minimum maximum
  | none => .ok v

/-- The final type-coercion step of `trivial_translator`: force to `str`
when the property's declared type is `str`, to `float` when it is
`float`. -/
def coerceReturn (return_type : String) (v : Value) : Except PyErr Value :=
  if return_type = "str" ∧ ¬ v.isStr then .ok (.str v.toStr)
  else if return_type = "float" ∧ ¬ v.isFloat then
    match v.toFloat with
    | .ok f => .ok (.num (.float f))
    | .error e => .error e
  else .ok v

/-- The resolver synthesized by `MetadataMeta._make_trivial_mapping`
(`trivial_translator` in the source), run on an instance state.  A single
header keyword is the singleton list. -/
def trivial_translator (return_type : String) (keywords : List String)
    (default : Option Value) (minimum maximum : Option PyNum)
    (unit : Option String) (s : TransState) : Except PyErr PyObj × TransState :=
  match unit with
  | some un => quantity_from_card s keywords un default minimum maximum
  | none =>
      match scanKeywords s.header keywords with
      | some (key, v) =>
          match checked_value default v minimum maximum with
          | .error e => (.error e, s)
          | .ok v1 =>
              let s1 := used_these_cards s key
              match coerceReturn return_type v1 with
              | .error e => (.error e, s1)
              | .ok v2 => (.ok (.val v2), s1)
      | none =>
          match default with
          | some d =>
              match coerceReturn return_type d with
              | .error e => (.error e, s)
              | .ok v2 => (.ok (.val v2), s)
          | none => (.error (.keyError keywords), s)

/-- A synthesized resolver: either a constant mapping or a trivial
mapping. -/
inductive Resolver where
  | constMap (c : Value) : Resolver
  | trivialMap (return_type : String) (keywords : List String)
      (default : Option Value) (minimum maximum : Option PyNum)
      (unit : Option String) : Resolver

/-- Run a synthesized resolver on an instance state.  A constant mapping
(`constant_translator`) ignores the header and state entirely. -/
def runResolver : Resolver → TransState → Except PyErr PyObj × TransState
  | .constMap c, s => (.ok (.val c), s)
  | .trivialMap rt kws d mn mx u, s => trivial_translator rt kws d mn mx u s

/-- The shared property registry PROPERTIES, reduced to what the compiler
consults: the declared type name of each property (the description only
feeds docstrings).  The table itself lives outside the compiled core
(`properties.py`); its lookup behaviour in `_make_trivial_mapping` lines
134-138 is embedded here. -/
def resolveReturnType (PROPERTIES : List (String × String)) (property_key : String) : String :=
  match dictLookup property_key PROPERTIES with
  | some t => t
  | none => "str` or `numbers.Number"

/-- `MetadataMeta._make_trivial_mapping`: build the trivial-mapping
resolver for a property, taking the declared return type from the shared
property registry. -/
def make_trivial_mapping (PROPERTIES : List (String × String)) (property_key : String)
    (keywords : List String) (default : Option Value) (minimum maximum : Option PyNum)
    (unit : Option String) : Resolver :=
  .trivialMap (resolveReturnType PROPERTIES property_key) keywords default minimum maximum unit

/-- `MetadataMeta._make_const_mapping`: build the constant resolver. -/
def make_const_mapping (constant : Value) : Resolver := .constMap constant

/-! ## Registry and selector -/

/-- A translation class as the selector sees it: an identifier (standing
for the class object) and its `can_translate` recognition predicate. -/
structure TClass where
  cid : ℕ
  can_translate : Header → Bool

abbrev Registry := List (String × TClass)

/-- The registration step of `MetadataMeta.__init__`: a class with a
non-null `name` is entered in `MetadataTranslator.translators` under that
name (dict assignment, so an existing entry is silently replaced); an
unnamed class is not registered. -/
def register_class (name : Option String) (cls : TClass) (reg : Registry) : Registry :=
  match name with
  | some n => dictInsert n cls reg
  | none => reg

/-- `MetadataTranslator.determine_translator(header)`: scan the registry in
insertion order and return the first class whose predicate accepts the
header; raise ValueError when none does. -/
def determine_translator (reg : Registry) (h : Header) : Except PyErr TClass :=
  match reg with
  | [] => .error (.valueError "None of the registered translation classes understood this header")
  | (_, t) :: rest =>
      if t.can_translate h then .ok t else determine_translator rest h

/-! ## Helper lemmas -/

theorem dictLookup_dictInsert_self {α : Type} (k : String) (v : α) :
    ∀ l : List (String × α), dictLookup k (dictInsert k v l) = some v
  | [] => by simp [dictInsert, dictLookup]
  | (k2, v2) :: rest => by
      by_cases h : k2 = k
      · simp [dictInsert, dictLookup, h]
      · simp [dictInsert, dictLookup, h, dictLookup_dictInsert_self k v rest]

theorem PyNum.lt_false_of_isnan_left (a b : PyNum) (h : a.isnan = true) : a.lt b = false := by
  cases a with
  | int n => simp [PyNum.isnan] at h
  | float f =>
      cases f with
      | nan =>
          cases b with
          | int n => rfl
          | float g =>
              cases g with
              | nan => rfl
              | inf neg => cases neg <;> rfl
              | fin q => rfl
      | inf neg => simp [PyNum.isnan] at h
      | fin q => simp [PyNum.isnan] at h

theorem PyNum.lt_false_of_isnan_right (a b : PyNum) (h : b.isnan = true) : a.lt b = false := by
  cases b with
  | int n => simp [PyNum.isnan] at h
  | float f =>
      cases f with
      | nan =>
          cases a with
          | int n => rfl
          | float g => cases g with
            | nan => rfl
            | inf neg => cases neg <;> rfl
            | fin q => rfl
      | inf neg => simp [PyNum.isnan] at h
      | fin q => simp [PyNum.isnan] at h

/-! ## Claim theorems -/

/-- C2: `validate_value` returns the default when the value is None or NaN,
or when it falls below a declared minimum or above a declared maximum; an
in-range value is returned unchanged.  Out-of-range values are rejected to
the default, never clamped: validating 150 against default 40 and maximum
100 yields 40. -/
theorem validate_value_rejection_policy (v : PyNum) (d : Value) (mn mx : Option PyNum) :
    validate_value none d mn mx = .ok d
    ∧ (v.isnan = true → validate_value (some (.num v)) d mn mx = .ok d)
    ∧ ((∃ m, mn = some m ∧ v.lt m = true) → validate_value (some (.num v)) d mn mx = .ok d)
    ∧ ((∃ m, mx = some m ∧ m.lt v = true) → validate_value (some (.num v)) d mn mx = .ok d)
    ∧ (v.isnan = false → (∀ m, mn = some m → v.lt m = false) →
        (∀ m, mx = some m → m.lt v = false) →
        validate_value (some (.num v)) d mn mx = .ok (.num v))
    ∧ validate_value (some (.num (.int 150))) (.num (.int 40)) none (some (.int 100))
        = .ok (.num (.int 40)) := by
  refine ⟨rfl, ?_, ?_, ?_, ?_, ?_⟩
  · intro h
    simp [validate_value, h]
  · rintro ⟨m, rfl, hlt⟩
    have hnan : v.isnan = false := by
      by_contra hc
      rw [PyNum.lt_false_of_isnan_left v m (by simpa using hc)] at hlt
      exact Bool.false_ne_true hlt
    simp [validate_value, hnan, hlt]
  · rintro ⟨m, rfl, hlt⟩
    have hnan : v.isnan = false := by
      by_contra hc
      rw [PyNum.lt_false_of_isnan_right m v (by simpa using hc)] at hlt
      exact Bool.false_ne_true hlt
    simp only [validate_value, hnan, Bool.false_eq_true, if_false, hlt, if_true]
    split <;> rfl
  · intro hnan h1 h2
    cases mn with
    | none =>
        cases mx with
        | none => simp [validate_value, hnan]
        | some m => simp [validate_value, hnan, h2 m rfl]
    | some m =>
        cases mx with
        | none => simp [validate_value, hnan, h1 m rfl]
        | some m2 => simp [validate_value, hnan, h1 m rfl, h2 m2 rfl]
  · decide

/-- C2 witness: validating NaN yields the default, and 150 against
default 40 / maximum 100 yields 40, not 100. -/
theorem validate_value_rejection_policy_witness :
    validate_value (some (.num (.float .nan))) (.num (.int 40)) none none = .ok (.num (.int 40))
    ∧ validate_value (some (.num (.int 150))) (.num (.int 40)) none (some (.int 100))
        = .ok (.num (.int 40)) :=
  ⟨(validate_value_rejection_policy (.float .nan) (.num (.int 40)) none none).2.1 rfl,
   (validate_value_rejection_policy (.int 0) (.num (.int 40)) none none).2.2.2.2.2⟩

/-- C3: when none of the candidate keywords is present in the header,
`quantity_from_card` raises KeyError naming the candidates tried, even when
a default was supplied; the default never substitutes for an absent
field. -/
theorem quantity_from_card_absent_raises (s : TransState) (kws : List String) (u : String)
    (d : Option Value) (mn mx : Option PyNum)
    (habs : scanKeywords s.header kws = none) :
    quantity_from_card s kws u d mn mx = (.error (.keyError kws), s) := by
  simp [quantity_from_card, habs]

/-- C3 witness: a header lacking AIRMASS makes the quantity resolver fail
with KeyError despite default 1.0 and minimum 1.0. -/
theorem quantity_from_card_absent_raises_witness :
    quantity_from_card ⟨[("TELESCOP", .str "JCMT")], ∅⟩ ["AIRMASS"] "dimensionless"
        (some (.num (.float (.fin 1)))) (some (.float (.fin 1))) none
      = (.error (.keyError ["AIRMASS"]), ⟨[("TELESCOP", .str "JCMT")], ∅⟩) :=
  quantity_from_card_absent_raises _ _ _ _ _ _ (by rfl)

/-- C8: a constant-mapped resolver returns its literal for every header and
every prior state, never fails, and leaves the used-cards set exactly
unchanged. -/
theorem const_mapping_returns_constant (c : Value) (s : TransState) :
    runResolver (make_const_mapping c) s = (.ok (.val c), s)
    ∧ cards_used (runResolver (make_const_mapping c) s).2 = cards_used s :=
  ⟨rfl, rfl⟩

/-- C6: registering a named class enters it in the registry under its name,
and a later definition with the same name silently replaces the earlier
entry: the registry then maps the name to the most recently defined
class. -/
theorem registry_last_defined_wins (reg : Registry) (n : String) (c1 c2 : TClass) :
    dictLookup n (register_class (some n) c1 reg) = some c1
    ∧ dictLookup n (register_class (some n) c2 (register_class (some n) c1 reg)) = some c2 :=
  ⟨dictLookup_dictInsert_self n c1 reg, dictLookup_dictInsert_self n c2 _⟩

/-- C5: `determine_translator` scans the registered classes in registration
order and returns the first whose `can_translate` predicate accepts the
header; when every predicate answers false it raises ValueError. -/
theorem determine_translator_first_match (h : Header) (reg : Registry) :
    ((∀ p ∈ reg, p.2.can_translate h = false) →
        determine_translator reg h
          = .error (.valueError "None of the registered translation classes understood this header"))
    ∧ (∀ pre n t post, reg = pre ++ (n, t) :: post →
        (∀ p ∈ pre, p.2.can_translate h = false) →
        t.can_translate h = true →
        determine_translator reg h = .ok t) := by
  induction reg with
  | nil =>
      refine ⟨fun _ => rfl, ?_⟩
      intro pre n t post heq
      exact absurd heq (by simp)
  | cons q rest ih =>
      obtain ⟨kq, tq⟩ := q
      constructor
      · intro hall
        have h0 : tq.can_translate h = false := hall (kq, tq) (List.mem_cons_self _ _)
        simp only [determine_translator, h0, Bool.false_eq_true, if_false]
        exact ih.1 fun p hp => hall p (List.mem_cons_of_mem _ hp)
      · intro pre n t post heq hpre ht
        cases pre with
        | nil =>
            rw [List.nil_append] at heq
            injection heq with h1 h2
            injection h1 with hk htq
            subst htq
            simp [determine_translator, ht]
        | cons p0 pre2 =>
            simp only [List.cons_append, List.cons.injEq] at heq
            obtain ⟨hq, hr⟩ := heq
            have h0 : tq.can_translate h = false := by
              have hm := hpre p0 (List.mem_cons_self _ _)
              rw [← hq] at hm
              exact hm
            simp only [determine_translator, h0, Bool.false_eq_true, if_false]
            exact ih.2 pre2 n t post hr (fun p hp => hpre p (List.mem_cons_of_mem _ hp)) ht

/-- C5 witness: two registered classes whose predicates both accept a
header; the selector returns the earlier-registered one. -/
theorem determine_translator_first_match_witness :
    determine_translator [("first", ⟨1, fun _ => true⟩), ("second", ⟨2, fun _ => true⟩)] []
      = .ok ⟨1, fun _ => true⟩ :=
  (determine_translator_first_match [] _).2 [] "first" ⟨1, fun _ => true⟩
    [("second", ⟨2, fun _ => true⟩)] rfl (by simp) rfl

theorem scanKeywords_append_none (header : Header) (pre rest : List String)
    (hpre : ∀ k ∈ pre, dictLookup k header = none) :
    scanKeywords header (pre ++ rest) = scanKeywords header rest := by
  induction pre with
  | nil => rfl
  | cons k0 pre2 ih =>
      have h0 : dictLookup k0 header = none := hpre k0 (List.mem_cons_self _ _)
      simp only [List.cons_append, scanKeywords, h0]
      exact ih fun k hk => hpre k (List.mem_cons_of_mem _ hk)

theorem validate_value_num_ok (n : PyNum) (d : Value) (mn mx : Option PyNum) :
    ∃ w, validate_value (some (.num n)) d mn mx = .ok w := by
  simp only [validate_value]
  split_ifs <;> exact ⟨_, rfl⟩

theorem checked_value_ok (dflt : Option Value) (v : Value) (mn mx : Option PyNum) :
    ∃ w, checked_value dflt v mn mx = .ok w := by
  cases dflt with
  | none => exact ⟨v, rfl⟩
  | some d =>
      cases v with
      | str s2 => exact ⟨.str s2, rfl⟩
      | num n =>
          obtain ⟨w, hw⟩ := validate_value_num_ok n d mn mx
          exact ⟨w, by simp [checked_value, Value.isStr, hw]⟩

theorem trivial_translator_found_state (rt : String) (kws : List String)
    (dflt : Option Value) (mn mx : Option PyNum) (s : TransState) (k : String) (v : Value)
    (hscan : scanKeywords s.header kws = some (k, v)) :
    (trivial_translator rt kws dflt mn mx none s).2 = used_these_cards s k := by
  obtain ⟨w, hw⟩ := checked_value_ok dflt v mn mx
  cases hc : coerceReturn rt w with
  | ok v2 => simp [trivial_translator, hscan, hw, hc]
  | error e => simp [trivial_translator, hscan, hw, hc]

/-- C1: a trivial-mapping resolver without a unit reads the first candidate
field present in the header (earlier candidates take precedence: its
outcome equals that of the resolver declared with just the winning
candidate) and afterwards the used-cards set has gained exactly the winning
candidate — in particular it contains the winner and has gained none of the
later candidates. -/
theorem trivial_first_candidate_wins (rt : String) (pre post : List String) (k : String)
    (v : Value) (dflt : Option Value) (mn mx : Option PyNum) (s : TransState)
    (hpre : ∀ k2 ∈ pre, dictLookup k2 s.header = none)
    (hk : dictLookup k s.header = some v) :
    trivial_translator rt (pre ++ k :: post) dflt mn mx none s
      = trivial_translator rt [k] dflt mn mx none s
    ∧ (trivial_translator rt (pre ++ k :: post) dflt mn mx none s).2.used_cards
        = insert k s.used_cards
    ∧ ∀ k2 ∈ post, k2 ∉ s.used_cards → k2 ≠ k →
        k2 ∉ (trivial_translator rt (pre ++ k :: post) dflt mn mx none s).2.used_cards := by
  have hscan : scanKeywords s.header (pre ++ k :: post) = some (k, v) := by
    rw [scanKeywords_append_none s.header pre _ hpre]
    simp [scanKeywords, hk]
  have hscan1 : scanKeywords s.header [k] = some (k, v) := by simp [scanKeywords, hk]
  have hstate := trivial_translator_found_state rt (pre ++ k :: post) dflt mn mx s k v hscan
  refine ⟨?_, ?_, ?_⟩
  · simp only [trivial_translator, hscan, hscan1]
  · rw [hstate]
    rfl
  · intro k2 _ hk2 hne
    rw [hstate]
    simp [used_these_cards, hne, hk2]

/-- C1 witness: with candidates A, B, C and a header containing B and C,
the resolver behaves like the B-only resolver and records exactly B. -/
theorem trivial_first_candidate_wins_witness :
    (trivial_translator "" ["A", "B", "C"] none none none none
        ⟨[("B", .num (.int 1)), ("C", .num (.int 2))], ∅⟩).2.used_cards
      = insert "B" (∅ : Finset String) :=
  (trivial_first_candidate_wins "" ["A"] ["C"] "B" (.num (.int 1)) none none none
      ⟨[("B", .num (.int 1)), ("C", .num (.int 2))], ∅⟩ (by decide) (by rfl)).2.1

theorem quantity_from_card_idem (s : TransState) (kws : List String) (u : String)
    (dflt : Option Value) (mn mx : Option PyNum) :
    quantity_from_card (quantity_from_card s kws u dflt mn mx).2 kws u dflt mn mx
      = quantity_from_card s kws u dflt mn mx := by
  cases hscan : scanKeywords s.header kws with
  | none =>
      have h2 : (quantity_from_card s kws u dflt mn mx).2 = s := by
        simp [quantity_from_card, hscan]
      rw [h2]
  | some kv =>
      obtain ⟨k, v⟩ := kv
      cases hcv : (if v.isStr then (v.toFloat).map (fun f => Value.num (.float f)) else .ok v) with
      | error e =>
          have h1 : quantity_from_card s kws u dflt mn mx = (.error e, s) := by
            simp [quantity_from_card, hscan, hcv]
          rw [h1]
          exact h1
      | ok v1 =>
          cases hval : (match dflt with
                        | some d => validate_value (some v1) d mn mx
                        | none => .ok v1) with
          | error e =>
              have h1 : quantity_from_card s kws u dflt mn mx
                  = (.error e, used_these_cards s k) := by
                simp [quantity_from_card, hscan, hcv, hval]
              rw [h1]
              have hscan2 : scanKeywords (used_these_cards s k).header kws = some (k, v) := hscan
              simp [quantity_from_card, hscan, hscan2, hcv, hval, used_these_cards,
                Finset.insert_idem]
          | ok v2 =>
              have h1 : quantity_from_card s kws u dflt mn mx
                  = (.ok (.quantity v2 u), used_these_cards s k) := by
                simp [quantity_from_card, hscan, hcv, hval]
              rw [h1]
              have hscan2 : scanKeywords (used_these_cards s k).header kws = some (k, v) := hscan
              simp [quantity_from_card, hscan, hscan2, hcv, hval, used_these_cards,
                Finset.insert_idem]

theorem trivial_translator_idem (rt : String) (kws : List String) (dflt : Option Value)
    (mn mx : Option PyNum) (u : Option String) (s : TransState) :
    trivial_translator rt kws dflt mn mx u ((trivial_translator rt kws dflt mn mx u s).2)
      = trivial_translator rt kws dflt mn mx u s := by
  cases u with
  | some un =>
      simp only [trivial_translator]
      exact quantity_from_card_idem s kws un dflt mn mx
  | none =>
      cases hscan : scanKeywords s.header kws with
      | none =>
          have h2 : (trivial_translator rt kws dflt mn mx none s).2 = s := by
            cases dflt with
            | none => simp [trivial_translator, hscan]
            | some d =>
                cases hc : coerceReturn rt d with
                | ok v2 => simp [trivial_translator, hscan, hc]
                | error e => simp [trivial_translator, hscan, hc]
          rw [h2]
      | some kv =>
          obtain ⟨k, v⟩ := kv
          cases hch : checked_value dflt v mn mx with
          | error e =>
              have h1 : trivial_translator rt kws dflt mn mx none s = (.error e, s) := by
                simp [trivial_translator, hscan, hch]
              rw [h1]
              exact h1
          | ok v1 =>
              cases hc : coerceReturn rt v1 with
              | error e =>
                  have h1 : trivial_translator rt kws dflt mn mx none s
                      = (.error e, used_these_cards s k) := by
                    simp [trivial_translator, hscan, hch, hc]
                  rw [h1]
                  have hscan2 : scanKeywords (used_these_cards s k).header kws = some (k, v) :=
                    hscan
                  simp [trivial_translator, hscan, hscan2, hch, hc, used_these_cards,
                    Finset.insert_idem]
              | ok v2 =>
                  have h1 : trivial_translator rt kws dflt mn mx none s
                      = (.ok (.val v2), used_these_cards s k) := by
                    simp [trivial_translator, hscan, hch, hc]
                  rw [h1]
                  have hscan2 : scanKeywords (used_these_cards s k).header kws = some (k, v) :=
                    hscan
                  simp [trivial_translator, hscan, hscan2, hch, hc, used_these_cards,
                    Finset.insert_idem]

/-- C7: invoking the same synthesized resolver (constant- or
trivial-mapped, with or without a unit) twice in succession on the same
instance gives the same outcome both times and leaves the used-cards set
after the second call equal to the set after the first. -/
theorem resolver_idempotent (r : Resolver) (s : TransState) :
    runResolver r ((runResolver r s).2) = runResolver r s := by
  cases r with
  | constMap c => rfl
  | trivialMap rt kws dflt mn mx u => exact trivial_translator_idem rt kws dflt mn mx u s

theorem coerceReturn_str_isStr (v w : Value) (h : coerceReturn "str" v = .ok w) :
    w.isStr = true := by
  cases v with
  | str s2 =>
      simp [coerceReturn, Value.isStr] at h
      subst h
      rfl
  | num n =>
      simp [coerceReturn, Value.isStr] at h
      subst h
      rfl

theorem coerceReturn_float_isFloat (v w : Value) (h : coerceReturn "float" v = .ok w) :
    w.isFloat = true := by
  cases v with
  | str s2 =>
      cases hp : Value.toFloat (.str s2) with
      | ok f =>
          simp [coerceReturn, Value.isStr, Value.isFloat, hp] at h
          subst h
          rfl
      | error e => simp [coerceReturn, Value.isStr, Value.isFloat, hp] at h
  | num n =>
      cases n with
      | int m =>
          simp [coerceReturn, Value.isFloat, Value.toFloat] at h
          subst h
          rfl
      | float f =>
          simp [coerceReturn, Value.isFloat] at h
          subst h
          rfl

theorem trivial_translator_ok_coerced (rt : String) (kws : List String) (dflt : Option Value)
    (mn mx : Option PyNum) (s : TransState) (v : Value)
    (h : (trivial_translator rt kws dflt mn mx none s).1 = .ok (.val v)) :
    ∃ v0, coerceReturn rt v0 = .ok v := by
  cases hscan : scanKeywords s.header kws with
  | some kv =>
      obtain ⟨k, v1⟩ := kv
      cases hch : checked_value dflt v1 mn mx with
      | error e => simp [trivial_translator, hscan, hch] at h
      | ok v2 =>
          cases hc : coerceReturn rt v2 with
          | error e => simp [trivial_translator, hscan, hch, hc] at h
          | ok v3 =>
              have hv : v3 = v := by
                simp [trivial_translator, hscan, hch, hc] at h
                exact h
              exact ⟨v2, hv ▸ hc⟩
  | none =>
      cases dflt with
      | none => simp [trivial_translator, hscan] at h
      | some d =>
          cases hc : coerceReturn rt d with
          | error e => simp [trivial_translator, hscan, hc] at h
          | ok v3 =>
              have hv : v3 = v := by
                simp [trivial_translator, hscan, hc] at h
                exact h
              exact ⟨d, hv ▸ hc⟩

/-- C9: when the shared property registry declares a trivial-mapped
property's type as str, every value the unit-less resolver returns is a
string; when it declares float, every returned value is a float — even
when the header stored the value with the other type. -/
theorem trivial_mapping_declared_type_coercion (PROPERTIES : List (String × String))
    (pk : String) (kws : List String) (dflt : Option Value) (mn mx : Option PyNum)
    (s : TransState) (ty : String) (v : Value)
    (hty : dictLookup pk PROPERTIES = some ty)
    (hrun : (runResolver (make_trivial_mapping PROPERTIES pk kws dflt mn mx none) s).1
        = .ok (.val v)) :
    (ty = "str" → v.isStr = true) ∧ (ty = "float" → v.isFloat = true) := by
  have hrt : resolveReturnType PROPERTIES pk = ty := by simp [resolveReturnType, hty]
  rw [make_trivial_mapping, hrt] at hrun
  obtain ⟨v0, hv0⟩ := trivial_translator_ok_coerced ty kws dflt mn mx s v hrun
  exact ⟨fun hs => coerceReturn_str_isStr v0 v (hs ▸ hv0),
    fun hf => coerceReturn_float_isFloat v0 v (hf ▸ hv0)⟩

/-- C9 witness: a float-typed property whose header value is the string
"NaN" resolves to the float NaN. -/
theorem trivial_mapping_declared_type_coercion_witness :
    (runResolver (make_trivial_mapping [("boresight_airmass", "float")] "boresight_airmass"
          ["AIRMASS"] none none none none) ⟨[("AIRMASS", .str "NaN")], ∅⟩).1
      = .ok (.val (.num (.float .nan)))
    ∧ Value.isFloat (.num (.float .nan)) = true :=
  ⟨by rfl,
   (trivial_mapping_declared_type_coercion [("boresight_airmass", "float")] "boresight_airmass"
      ["AIRMASS"] none none none ⟨[("AIRMASS", .str "NaN")], ∅⟩ "float" (.num (.float .nan))
      (by rfl) (by rfl)).2 rfl⟩

theorem parsePyFloat_150 : parsePyFloat "150" = some (.fin 150) := by
  have h1 : parsePyFloat "150" = some (.fin (mantissaVal ['1', '5', '0'] [] 0)) := by rfl
  have h2 : digitsToNat ['1', '5', '0'] = 150 := by decide
  have h3 : digitsToNat [] = 0 := rfl
  rw [h1]
  norm_num [mantissaVal, h2, h3]

/-- C4 counterexample: a trivial mapping with default 40 and maximum 100
reading the string header value "150" returns 150.0 — the string value is
handed to the float coercion without ever passing through
`validate_value`, so the out-of-range value is not replaced by the
default. -/
theorem trivial_string_value_skips_validation_cex :
    (runResolver (.trivialMap "float" ["HUMIDITY"] (some (.num (.int 40))) none
        (some (.int 100)) none) ⟨[("HUMIDITY", .str "150")], ∅⟩).1
      = .ok (.val (.num (.float (.fin 150))))
    ∧ Value.num (.float (.fin 150)) ≠ Value.num (.int 40)
    ∧ Value.num (.float (.fin 150)) ≠ Value.num (.float (.fin 40)) := by
  refine ⟨?_, by decide, by decide⟩
  have h1 : (runResolver (.trivialMap "float" ["HUMIDITY"] (some (.num (.int 40))) none
        (some (.int 100)) none) ⟨[("HUMIDITY", .str "150")], ∅⟩).1
      = Except.map PyObj.val (coerceReturn "float" (.str "150")) := by rfl
  rw [h1]
  simp [coerceReturn, Value.isStr, Value.isFloat, Value.toFloat, parsePyFloat_150, Except.map]

/-- C4 (amended): in a trivial-mapping resolver without a unit, whenever a
non-string value was read from the header and a default was declared, that
value passes through `validate_value` with the declared default and bounds
before type coercion, and the winning keyword is recorded; string header
values bypass the validation step. -/
theorem trivial_nonstring_value_validated (rt : String) (kws : List String) (d : Value)
    (mn mx : Option PyNum) (s : TransState) (k : String) (v : Value)
    (hscan : scanKeywords s.header kws = some (k, v))
    (hstr : v.isStr = false) :
    ∃ w, validate_value (some v) d mn mx = .ok w
      ∧ (trivial_translator rt kws (some d) mn mx none s).1
          = Except.map PyObj.val (coerceReturn rt w)
      ∧ (trivial_translator rt kws (some d) mn mx none s).2 = used_these_cards s k := by
  cases v with
  | str s2 => simp [Value.isStr] at hstr
  | num n =>
      obtain ⟨w, hw⟩ := validate_value_num_ok n d mn mx
      have hch : checked_value (some d) (.num n) mn mx = .ok w := by
        simp [checked_value, Value.isStr, hw]
      refine ⟨w, hw, ?_, trivial_translator_found_state rt kws (some d) mn mx s k (.num n) hscan⟩
      cases hc : coerceReturn rt w with
      | ok v2 => simp [trivial_translator, hscan, hch, hc, Except.map]
      | error e => simp [trivial_translator, hscan, hch, hc, Except.map]

/-- C4 witness: the integer header value 150 with default 40 and maximum
100 is validated and rejected to the default. -/
theorem trivial_nonstring_value_validated_witness :
    ∃ w, validate_value (some (.num (.int 150))) (.num (.int 40)) none (some (.int 100)) = .ok w
      ∧ (trivial_translator "float" ["HUMIDITY"] (some (.num (.int 40))) none (some (.int 100))
            none ⟨[("HUMIDITY", .num (.int 150))], ∅⟩).1
          = Except.map PyObj.val (coerceReturn "float" w)
      ∧ (trivial_translator "float" ["HUMIDITY"] (some (.num (.int 40))) none (some (.int 100))
            none ⟨[("HUMIDITY", .num (.int 150))], ∅⟩).2
          = used_these_cards ⟨[("HUMIDITY", .num (.int 150))], ∅⟩ "HUMIDITY" :=
  trivial_nonstring_value_validated "float" ["HUMIDITY"] (.num (.int 40)) none (some (.int 100))
    ⟨[("HUMIDITY", .num (.int 150))], ∅⟩ "HUMIDITY" (.num (.int 150)) (by rfl) (by rfl)

/-- C10 counterexample: with no candidate present, a declared default that
is a string not parsable as a float, and a float-typed property, the
default path raises ValueError during type coercion instead of returning
the default. -/
theorem trivial_default_coercion_raises_cex :
    runResolver (.trivialMap "float" ["EXPTIME"] (some (.str "unknown")) none none none)
        ⟨[], ∅⟩
      = (.error (.valueError "unknown"), ⟨[], ∅⟩) := by rfl

/-- C10 (amended): when no candidate field is present and a default was
declared, the unit-less trivial resolver leaves the used-cards set exactly
unchanged and returns the type-coerced default; it raises only when the
coercion of the default itself fails (possible only for a float-typed
property whose default is a string that does not parse as a float). -/
theorem trivial_absent_default_unchanged (rt : String) (kws : List String) (d : Value)
    (mn mx : Option PyNum) (s : TransState)
    (habs : scanKeywords s.header kws = none) :
    trivial_translator rt kws (some d) mn mx none s
      = (Except.map PyObj.val (coerceReturn rt d), s) := by
  cases hc : coerceReturn rt d with
  | ok v2 => simp [trivial_translator, habs, hc, Except.map]
  | error e => simp [trivial_translator, habs, hc, Except.map]

/-- C10 witness: default 1 for a float-typed property with no candidate
present yields 1.0 with the used-cards set untouched. -/
theorem trivial_absent_default_unchanged_witness :
    trivial_translator "float" ["AIRMASS"] (some (.num (.int 1))) none none none ⟨[], ∅⟩
      = (Except.map PyObj.val (coerceReturn "float" (.num (.int 1))), ⟨[], ∅⟩) :=
  trivial_absent_default_unchanged "float" ["AIRMASS"] (.num (.int 1)) none none ⟨[], ∅⟩ (by rfl)
